import Mathlib

/-!
Verification of the Booking Lifecycle & Offer Allocation Engine of the
brm-calum/brmdev repository.  The SQL migration functions and the TypeScript
offer pages are shallowly embedded as Lean definitions; the numbered theorems
check the frozen specification claims against them.
-/

namespace BrmDev

/-- The unified lifecycle enum `booking_status` / `unified_status`
(migration `20250317132736_divine_spring.sql`, `part_015`). -/
inductive Status where
  | draft
  | submitted
  | under_review
  | offer_draft
  | offer_sent
  | changes_requested
  | accepted
  | rejected
  | cancelled
  | expired
  | confirmed
  | completed
  | archived
deriving DecidableEq, Repr, Fintype

open Status

/-- Embedding of `public.validate_status_transition(old_status, new_status,
is_admin)` from `part_015` lines 32-77 (identical in
`20250317132736_divine_spring.sql`).  The PL/pgSQL returns inside the
admin `CASE` cover every branch, so trader rules are only reached when
`is_admin` is false. -/
def validate_status_transition (old_status new_status : Status) (is_admin : Bool) : Bool :=
  if old_status = new_status then
    true
  else if is_admin then
    match old_status with
    | .submitted => [under_review, cancelled].contains new_status
    | .under_review => [offer_draft, cancelled].contains new_status
    | .offer_draft => [offer_sent, cancelled].contains new_status
    | .changes_requested => [offer_draft, cancelled].contains new_status
    | .accepted => [confirmed, cancelled].contains new_status
    | .confirmed => [completed, cancelled].contains new_status
    | .completed => new_status == archived
    | _ => false
  else
    match old_status with
    | .draft => [submitted, cancelled].contains new_status
    | .offer_sent => [accepted, rejected, changes_requested].contains new_status
    | _ => false

/-- The administrator rows of the spec's transition table (spec section 4.1),
written from the spec's words for the refinement comparison in C1. -/
def spec_admin_table : List (Status × Status) :=
  [(submitted, under_review), (submitted, cancelled),
   (under_review, offer_draft), (under_review, cancelled),
   (offer_draft, offer_sent), (offer_draft, cancelled),
   (changes_requested, offer_draft), (changes_requested, cancelled),
   (accepted, confirmed), (accepted, cancelled),
   (confirmed, completed), (confirmed, cancelled),
   (completed, archived)]

/-- The trader rows of the spec's transition table (spec section 4.1),
written from the spec's words for the refinement comparison in C1. -/
def spec_trader_table : List (Status × Status) :=
  [(draft, submitted), (draft, cancelled),
   (offer_sent, accepted), (offer_sent, rejected), (offer_sent, changes_requested)]

/-- The spec's allowed transitions: same state for anyone, otherwise a row of
the role's table. -/
def spec_allows (old_status new_status : Status) (is_admin : Bool) : Prop :=
  old_status = new_status ∨
    (if is_admin then (old_status, new_status) ∈ spec_admin_table
     else (old_status, new_status) ∈ spec_trader_table)

instance (o n : Status) (a : Bool) : Decidable (spec_allows o n a) := by
  unfold spec_allows; infer_instance

/-- A `booking_inquiries` row as touched by the status triggers:
`status`, `valid_until` (nullable timestamp, in seconds) and `updated_at`. -/
structure InquiryRow where
  status : Status
  valid_until : Option Nat
  updated_at : Nat
deriving DecidableEq, Repr

/-- Seconds in one day, for `interval '7 days'`. -/
def secondsPerDay : Nat := 86400

/-- Embedding of the trigger `public.handle_status_transition()` from
`part_015` lines 80-121 (identical side effects in
`20250317142026_super_disk.sql` lines 94-108): validate the transition,
raise an error naming the offending pair if invalid, otherwise stamp
`valid_until` on entering `offer_sent`, clear it on entering `expired`,
and refresh `updated_at`. -/
def handle_status_transition (row : InquiryRow) (new_status : Status)
    (is_admin : Bool) (now : Nat) : Except (Status × Status) InquiryRow :=
  if validate_status_transition row.status new_status is_admin then
    Except.ok
      { status := new_status
        valid_until :=
          match new_status with
          | .offer_sent => some (now + 7 * secondsPerDay)
          | .expired => none
          | _ => row.valid_until
        updated_at := now }
  else
    Except.error (row.status, new_status)

/-- A raised exception aborts the UPDATE, so the stored row is unchanged. -/
def run_status_update (row : InquiryRow) (new_status : Status)
    (is_admin : Bool) (now : Nat) : InquiryRow :=
  match handle_status_transition row new_status is_admin now with
  | Except.ok r => r
  | Except.error _ => row

theorem validate_iff_spec_allows :
    ∀ (o n : Status) (a : Bool),
      validate_status_transition o n a = true ↔ spec_allows o n a := by
  decide

/-- C1: `validate_status_transition(old, new, is_admin)` returns true exactly
when `old = new` or the pair is a row of the spec's transition table for the
actor's role; every other combination is rejected by the status trigger with
an error naming the offending pair, and the stored row is not mutated. -/
theorem c1_status_machine_matches_spec_table (o n : Status) (a : Bool) :
    (validate_status_transition o n a = true ↔ spec_allows o n a) ∧
    (validate_status_transition o n a = false →
      ∀ (vu : Option Nat) (ua now : Nat),
        handle_status_transition ⟨o, vu, ua⟩ n a now = Except.error (o, n) ∧
        run_status_update ⟨o, vu, ua⟩ n a now = ⟨o, vu, ua⟩) := by
  refine ⟨validate_iff_spec_allows o n a, ?_⟩
  intro h vu ua now
  constructor
  · simp [handle_status_transition, h]
  · simp [run_status_update, handle_status_transition, h]

/-- C1 witness: the rejecting branch at the concrete illegal pair
(draft, archived) for an administrator. -/
theorem c1_status_machine_matches_spec_table_witness :
    handle_status_transition ⟨Status.draft, some 5, 0⟩ Status.archived true 99 =
      Except.error (Status.draft, Status.archived) ∧
    run_status_update ⟨Status.draft, some 5, 0⟩ Status.archived true 99 =
      ⟨Status.draft, some 5, 0⟩ :=
  ((c1_status_machine_matches_spec_table Status.draft Status.archived true).2
    (by decide) (some 5) 0 99)

/-- C8: on every permitted transition the trigger stamps `valid_until` to
now + 7 days when the target is `offer_sent`, clears it when the target is
`expired`, and leaves it unchanged for every other target status. -/
theorem c8_valid_until_side_effects (row : InquiryRow) (n : Status)
    (a : Bool) (now : Nat)
    (h : validate_status_transition row.status n a = true) :
    handle_status_transition row n a now =
      Except.ok
        { status := n
          valid_until :=
            if n = Status.offer_sent then some (now + 7 * secondsPerDay)
            else if n = Status.expired then none
            else row.valid_until
          updated_at := now } := by
  simp only [handle_status_transition, h, if_true]
  cases n <;> simp

/-- C8 witness: an administrator sending a drafted offer at time 1000 gets a
`valid_until` of 1000 + 7 days. -/
theorem c8_valid_until_side_effects_witness :
    handle_status_transition ⟨Status.offer_draft, some 3, 0⟩ Status.offer_sent true 1000 =
      Except.ok ⟨Status.offer_sent, some (1000 + 7 * secondsPerDay), 1000⟩ := by
  have h := c8_valid_until_side_effects ⟨Status.offer_draft, some 3, 0⟩
    Status.offer_sent true 1000 (by decide)
  simpa using h

/-- An `offer_summaries` row as created by migration
`20250317134739_rustic_firefly.sql` (nullable `actual_offer_cents`). -/
structure OfferSummaryRow where
  quoted_price_cents : Int
  calculated_price_cents : Int
  actual_offer_cents : Option Int
  space_total_cents : Int
  services_total_cents : Int
deriving DecidableEq, Repr

/-- A `booking_offers` row as touched by the send-validation trigger. -/
structure OfferRow where
  status : Status
  total_cost_cents : Int
  valid_until : Option Nat
  updated_at : Nat
deriving DecidableEq, Repr

/-- The offer together with its (optional) summary row, the state read by
the `validate_offer_before_send` trigger. -/
structure OfferDb where
  offer : OfferRow
  summary : Option OfferSummaryRow
deriving DecidableEq, Repr

/-- Embedding of the trigger function `public.validate_offer_for_send()` from
`part_021` lines 171-192: when the new status is `offer_sent`, require an
`offer_summaries` row with non-null `actual_offer_cents`, else raise. -/
def validate_offer_for_send (new_status : Status) (summary : Option OfferSummaryRow) :
    Except String Unit :=
  if new_status = Status.offer_sent then
    match summary with
    | some s =>
        if s.actual_offer_cents.isSome then Except.ok ()
        else Except.error "Cannot send offer: actual_offer_cents must be set"
    | none => Except.error "Cannot send offer: actual_offer_cents must be set"
  else
    Except.ok ()

/-- An UPDATE of `booking_offers.status`, running the BEFORE UPDATE trigger
`validate_offer_before_send` (fired `WHEN OLD.status <> 'offer_sent' AND
NEW.status = 'offer_sent'`, `part_021` lines 233-237).  A raised exception
aborts the whole statement. -/
def update_offer_status (db : OfferDb) (new_status : Status) (now : Nat) :
    Except String OfferDb :=
  if db.offer.status ≠ Status.offer_sent ∧ new_status = Status.offer_sent then
    match validate_offer_for_send new_status db.summary with
    | Except.error e => Except.error e
    | Except.ok () =>
        Except.ok { db with offer := { db.offer with status := new_status, updated_at := now } }
  else
    Except.ok { db with offer := { db.offer with status := new_status, updated_at := now } }

/-- The persisted state after an attempted status update: unchanged when the
statement aborted. -/
def run_offer_status_update (db : OfferDb) (new_status : Status) (now : Nat) : OfferDb :=
  match update_offer_status db new_status now with
  | Except.ok db2 => db2
  | Except.error _ => db

/-- C2: moving an offer whose summary has a null `actual_offer_cents` (or no
summary row at all) to `offer_sent` fails with the validation error, and the
persisted offer state is unchanged after the failed attempt. -/
theorem c2_send_requires_actual (db : OfferDb) (now : Nat)
    (hstat : db.offer.status ≠ Status.offer_sent)
    (hact : (db.summary.bind OfferSummaryRow.actual_offer_cents) = none) :
    update_offer_status db Status.offer_sent now =
      Except.error "Cannot send offer: actual_offer_cents must be set" ∧
    run_offer_status_update db Status.offer_sent now = db := by
  have hv : validate_offer_for_send Status.offer_sent db.summary =
      Except.error "Cannot send offer: actual_offer_cents must be set" := by
    unfold validate_offer_for_send
    cases hs : db.summary with
    | none => rfl
    | some s =>
        rw [hs] at hact
        have hact2 : s.actual_offer_cents = none := hact
        simp [hact2]
  have hu : update_offer_status db Status.offer_sent now =
      Except.error "Cannot send offer: actual_offer_cents must be set" := by
    unfold update_offer_status
    simp [hstat, hv]
  exact ⟨hu, by unfold run_offer_status_update; rw [hu]⟩

/-- C2 witness: a drafted offer with a summary whose actual price is null. -/
theorem c2_send_requires_actual_witness :
    update_offer_status
      ⟨⟨Status.draft, 100, some 7, 0⟩, some ⟨50, 80, none, 80, 0⟩⟩
      Status.offer_sent 5 =
      Except.error "Cannot send offer: actual_offer_cents must be set" ∧
    run_offer_status_update
      ⟨⟨Status.draft, 100, some 7, 0⟩, some ⟨50, 80, none, 80, 0⟩⟩
      Status.offer_sent 5 =
      ⟨⟨Status.draft, 100, some 7, 0⟩, some ⟨50, 80, none, 80, 0⟩⟩ :=
  c2_send_requires_actual
    ⟨⟨Status.draft, 100, some 7, 0⟩, some ⟨50, 80, none, 80, 0⟩⟩ 5
    (by decide) (by decide)

/-- Embedding of the trigger function `public.update_inquiry_status_on_offer()`
from `part_021` lines 195-230: three sequential conditional updates of the
owning inquiry's status, keyed on the offer's old and new status. -/
def update_inquiry_status_on_offer (old_status new_status : Status)
    (inquiry_status : Status) : Status :=
  let s1 :=
    if new_status = Status.offer_sent ∧ old_status = Status.draft then
      Status.offer_sent
    else inquiry_status
  let s2 :=
    if new_status = Status.accepted ∧ old_status = Status.offer_sent then
      Status.accepted
    else s1
  let s3 :=
    if new_status = Status.rejected ∧ old_status = Status.offer_sent then
      Status.offer_draft
    else s2
  s3

/-- C10: the owning inquiry's status is updated exactly as the trigger's three
cases prescribe — draft-to-offer_sent sets it to offer_sent, offer_sent-to-
accepted sets it to accepted, offer_sent-to-rejected sets it to offer_draft
(not rejected) — and every other offer-status change leaves it unchanged. -/
theorem c10_inquiry_status_coupling :
    ∀ (o n i : Status),
      update_inquiry_status_on_offer o n i =
        if o = Status.draft ∧ n = Status.offer_sent then Status.offer_sent
        else if o = Status.offer_sent ∧ n = Status.accepted then Status.accepted
        else if o = Status.offer_sent ∧ n = Status.rejected then Status.offer_draft
        else i := by
  decide

/-- Milliseconds in one day, as in `1000 * 60 * 60 * 24` in the offer page. -/
def msPerDay : Nat := 86400000

/-- `Math.ceil` of a division of natural numbers by `msPerDay`. -/
def ceilDivMs (diff : Nat) : Nat := (diff + msPerDay - 1) / msPerDay

/-- Embedding of the duration computation of the current `CreateOfferPage`
(`part_004` lines 35-38): `Math.ceil((end - start) / msPerDay) + 1`, the +1
including both the start and the end date. -/
def inquiry_duration_days (startMs endMs : Nat) : Nat :=
  ceilDivMs (endMs - startMs) + 1

/-- The fields of one space-allocation element consumed by the total
computation of `public.save_offer_allocations` (`part_019` lines 77-90). -/
structure SpaceAllocationInput where
  allocated_size_m2 : Int
  list_price_per_m2_cents : Int
  offer_total_cents : Int
  duration_days : Int
  is_offer_price_manual : Bool
deriving DecidableEq, Repr

/-- The contribution of one space line to `v_space_total` in
`public.save_offer_allocations` (`part_019` lines 77-90): the caller-supplied
`offer_total_cents` when `is_offer_price_manual`, otherwise
`list_price_per_m2_cents * allocated_size_m2 * duration_days`. -/
def space_line_total (s : SpaceAllocationInput) : Int :=
  if s.is_offer_price_manual then s.offer_total_cents
  else s.list_price_per_m2_cents * s.allocated_size_m2 * s.duration_days

/-- `v_space_total` accumulated over the space-allocation loop. -/
def space_total (l : List SpaceAllocationInput) : Int :=
  l.foldl (fun acc s => acc + space_line_total s) 0

theorem ceilDivMs_mul (k : Nat) : ceilDivMs (k * msPerDay) = k := by
  unfold ceilDivMs msPerDay
  omega

/-- C3: a space line with the manual flag off totals
`allocated_size_m2 * list_price_per_m2_cents * duration_days` where the
duration is the inclusive day count (day difference + 1); a manual line
totals the caller-supplied `offer_total_cents`.  In particular 100 m² at 500
cents/m² from 2025-01-01 (epoch ms 1735689600000) to 2025-01-10 (epoch ms
1736467200000) gives 10 days and 500000 cents. -/
theorem c3_space_line_pricing (s : SpaceAllocationInput) :
    (s.is_offer_price_manual = false →
      space_line_total s =
        s.allocated_size_m2 * s.list_price_per_m2_cents * s.duration_days) ∧
    (s.is_offer_price_manual = true → space_line_total s = s.offer_total_cents) ∧
    (∀ d1 d2 : Nat,
      inquiry_duration_days (d1 * msPerDay) (d2 * msPerDay) = (d2 - d1) + 1) ∧
    inquiry_duration_days 1735689600000 1736467200000 = 10 ∧
    space_line_total ⟨100, 500, 0, 10, false⟩ = 500000 := by
  refine ⟨?_, ?_, ?_, ?_, ?_⟩
  · intro h
    unfold space_line_total
    rw [h]
    simp [Int.mul_comm, Int.mul_assoc, Int.mul_left_comm]
  · intro h
    unfold space_line_total
    rw [h]
    simp
  · intro d1 d2
    unfold inquiry_duration_days
    have hsub : d2 * msPerDay - d1 * msPerDay = (d2 - d1) * msPerDay :=
      (Nat.sub_mul d2 d1 msPerDay).symm
    rw [hsub, ceilDivMs_mul]
  · unfold inquiry_duration_days ceilDivMs msPerDay
    norm_num
  · unfold space_line_total
    norm_num

/-- C3 witness: the non-manual rule applied at the concrete spec example. -/
theorem c3_space_line_pricing_witness :
    space_line_total ⟨100, 500, 0, 10, false⟩ = 100 * 500 * 10 := by
  have h := (c3_space_line_pricing ⟨100, 500, 0, 10, false⟩).1 rfl
  simpa using h

/-- The `pricing_type` check constraint values of `booking_offer_services`. -/
inductive PricingType where
  | hourly_rate
  | per_unit
  | fixed
  | ask_quote
deriving DecidableEq, Repr

/-- A `booking_offer_services` row (columns added in `part_016`). -/
structure ServiceChildRow where
  pricing_type : PricingType
  quantity : Option Int
  price_per_hour_cents : Option Int
  price_per_unit_cents : Option Int
  unit_type : Option String
  fixed_price_cents : Option Int
  offer_total_cents : Option Int
deriving DecidableEq, Repr

/-- The per-row condition of send-validation check 3 in
`validate_offer_for_send(p_offer_id)` (App.tsx SQL): a non-quote service line
missing the price field required by its pricing mode. -/
def service_missing_price (s : ServiceChildRow) : Bool :=
  (s.pricing_type != PricingType.ask_quote) &&
    ((s.pricing_type == PricingType.hourly_rate && s.price_per_hour_cents.isNone) ||
     (s.pricing_type == PricingType.per_unit &&
       (s.price_per_unit_cents.isNone || s.unit_type.isNone)) ||
     (s.pricing_type == PricingType.fixed && s.fixed_price_cents.isNone))

/-- The persisted rows read and written by `send_booking_offer` (App.tsx SQL
revision): the offer header, its summary's actual price, its space and service
allocation rows, the inquiry's space requests and status, and the
notifications inserted for the trader. -/
structure SendOfferState where
  offer_status : Status
  total_cost_cents : Int
  valid_until : Option Nat
  offer_updated_at : Nat
  summary_actual : Option Int
  space_allocated : List Int
  services : List ServiceChildRow
  requested_sizes : List Int
  inquiry_status : Status
  inquiry_valid_until : Option Nat
  inquiry_updated_at : Nat
  trader_notifications : Nat
deriving DecidableEq, Repr

/-- `WHERE space_allocated_m2 > 0` over the offer's space rows. -/
def positive_allocations (st : SendOfferState) : List Int :=
  st.space_allocated.filter (fun a => decide (0 < a))

/-- `COALESCE(SUM(space_allocated_m2), 0)` over the positive rows. -/
def total_allocated (st : SendOfferState) : Int :=
  (positive_allocations st).foldl (fun acc a => acc + a) 0

/-- `COALESCE(SUM(size_m2), 0)` over the inquiry's space requests. -/
def total_requested (st : SendOfferState) : Int :=
  st.requested_sizes.foldl (fun acc a => acc + a) 0

/-- Embedding of `public.validate_offer_for_send(p_offer_id)` from the SQL
appended to `src/App.tsx`: at least one positive space allocation, total
allocated at least the total requested, every non-quote service priced, and a
positive total cost. -/
def validate_offer_send_checks (st : SendOfferState) : Except String Unit :=
  if (positive_allocations st).length = 0 then
    Except.error "At least one space must be allocated"
  else if total_allocated st < total_requested st then
    Except.error "Total allocated space must meet or exceed requested space"
  else if st.services.any service_missing_price then
    Except.error "All services must have proper pricing set"
  else if ¬ 0 < st.total_cost_cents then
    Except.error "Total cost must be set"
  else
    Except.ok ()

/-- Embedding of `public.send_booking_offer(p_offer_id)` from the SQL appended
to `src/App.tsx`: administrator check, validation, then `UPDATE booking_offers
SET status = 'offer_sent' ... WHERE ... AND status = 'draft'` (firing the
`validate_offer_before_send` trigger on the matched row), the inquiry status
update, and one notification to the trader.  The `UPDATE booking_inquiries SET
status = 'offer_sent'` fires the live `status_transition_trigger` on
`booking_inquiries` — embedded above as `handle_status_transition` — which
raises and rolls the whole send back when the inquiry's transition to
`offer_sent` is not permitted, and otherwise stamps the inquiry row's
`valid_until` and `updated_at`.  (When the offer row matched, the AFTER
trigger `update_inquiry_status_on_offer` has already moved the inquiry to
`offer_sent` through the same inquiry trigger, and the explicit update is then
a same-state no-op; the net inquiry row is one `handle_status_transition`
application either way.)  The function never touches the offer's
`valid_until`. -/
def send_booking_offer (st : SendOfferState) (is_admin : Bool) (now : Nat) :
    Except String SendOfferState :=
  if ¬ is_admin then
    Except.error "Permission denied"
  else
    match validate_offer_send_checks st with
    | Except.error e => Except.error e
    | Except.ok () =>
        if st.offer_status = Status.draft then
          if st.summary_actual.isNone then
            Except.error "Cannot send offer: actual_offer_cents must be set"
          else
            match handle_status_transition
                ⟨st.inquiry_status, st.inquiry_valid_until, st.inquiry_updated_at⟩
                Status.offer_sent is_admin now with
            | Except.error _ => Except.error "Invalid status transition"
            | Except.ok irow =>
                Except.ok { st with
                  offer_status := Status.offer_sent
                  offer_updated_at := now
                  inquiry_status := irow.status
                  inquiry_valid_until := irow.valid_until
                  inquiry_updated_at := irow.updated_at
                  trader_notifications := st.trader_notifications + 1 }
        else
          match handle_status_transition
              ⟨st.inquiry_status, st.inquiry_valid_until, st.inquiry_updated_at⟩
              Status.offer_sent is_admin now with
          | Except.error _ => Except.error "Invalid status transition"
          | Except.ok irow =>
              Except.ok { st with
                inquiry_status := irow.status
                inquiry_valid_until := irow.valid_until
                inquiry_updated_at := irow.updated_at
                trader_notifications := st.trader_notifications + 1 }

/-- A concrete send-ready offer: drafted, actual price set, 60 m² allocated
against 50 m² requested, stored `valid_until` 42, inquiry in `offer_draft`
so its transition to `offer_sent` is permitted for the administrator. -/
def c4_state : SendOfferState :=
  { offer_status := Status.draft
    total_cost_cents := 90000
    valid_until := some 42
    offer_updated_at := 0
    summary_actual := some 90000
    space_allocated := [60]
    services := []
    requested_sizes := [50]
    inquiry_status := Status.offer_draft
    inquiry_valid_until := none
    inquiry_updated_at := 0
    trader_notifications := 0 }

/-- C4 counterexample: at `c4_state` the sum of allocations (60) meets the
requested total (50) and the send succeeds — the inquiry-side status trigger
permits `offer_draft` to `offer_sent` and stamps the inquiry row — but the
resulting offer's `valid_until` is the stored 42, not now + 7 days, refuting
the claim that a successful send sets the offer's `valid_until` to now + 7
days. -/
theorem c4_send_does_not_stamp_valid_until_cex :
    send_booking_offer c4_state true 0 =
      Except.ok { c4_state with
        offer_status := Status.offer_sent
        inquiry_status := Status.offer_sent
        inquiry_valid_until := some 604800
        trader_notifications := 1 } ∧
    (some 42 : Option Nat) ≠ some (0 + 7 * secondsPerDay) := by
  constructor
  · rfl
  · decide

/-- C4 (amended): with the other send preconditions holding — including an
inquiry state whose transition to `offer_sent` the status machine permits —
`send_booking_offer` fails with the allocation validation error exactly when
the total allocated space is below the inquiry's total requested space, and
otherwise succeeds with the offer status becoming `offer_sent`; the inquiry
row is stamped by its status trigger, while the offer's `valid_until` keeps
its stored value and is not re-stamped by the send. -/
theorem c4_send_offer_allocation_threshold (st : SendOfferState) (now : Nat)
    (hcount : (positive_allocations st).length ≠ 0)
    (hserv : st.services.any service_missing_price = false)
    (hcost : 0 < st.total_cost_cents)
    (hdraft : st.offer_status = Status.draft)
    (hact : st.summary_actual.isSome = true)
    (hinq : validate_status_transition st.inquiry_status Status.offer_sent true = true) :
    (total_allocated st < total_requested st →
      send_booking_offer st true now =
        Except.error "Total allocated space must meet or exceed requested space") ∧
    (total_requested st ≤ total_allocated st →
      send_booking_offer st true now =
        Except.ok { st with
          offer_status := Status.offer_sent
          offer_updated_at := now
          inquiry_status := Status.offer_sent
          inquiry_valid_until := some (now + 7 * secondsPerDay)
          inquiry_updated_at := now
          trader_notifications := st.trader_notifications + 1 } ∧
      ∀ r, send_booking_offer st true now = Except.ok r →
        r.valid_until = st.valid_until) := by
  obtain ⟨a, ha⟩ := Option.isSome_iff_exists.mp hact
  have hhandle : handle_status_transition
      ⟨st.inquiry_status, st.inquiry_valid_until, st.inquiry_updated_at⟩
      Status.offer_sent true now =
      Except.ok ⟨Status.offer_sent, some (now + 7 * secondsPerDay), now⟩ := by
    simp [handle_status_transition, hinq]
  constructor
  · intro hlt
    simp [send_booking_offer, validate_offer_send_checks, hcount, hlt]
  · intro hge
    have hnlt : ¬ total_allocated st < total_requested st := not_lt.mpr hge
    have hok : send_booking_offer st true now =
        Except.ok { st with
          offer_status := Status.offer_sent
          offer_updated_at := now
          inquiry_status := Status.offer_sent
          inquiry_valid_until := some (now + 7 * secondsPerDay)
          inquiry_updated_at := now
          trader_notifications := st.trader_notifications + 1 } := by
      simp [send_booking_offer, validate_offer_send_checks, hcount, hnlt, hserv,
        hcost, hdraft, ha, hhandle]
    refine ⟨hok, ?_⟩
    intro r hr
    rw [hok] at hr
    cases hr
    rfl

/-- C4 witness: the amended claim evaluated at the concrete send-ready state. -/
theorem c4_send_offer_allocation_threshold_witness :
    send_booking_offer c4_state true 9 =
      Except.ok { c4_state with
        offer_status := Status.offer_sent
        offer_updated_at := 9
        inquiry_status := Status.offer_sent
        inquiry_valid_until := some (9 + 7 * secondsPerDay)
        inquiry_updated_at := 9
        trader_notifications := 1 } :=
  ((c4_send_offer_allocation_threshold c4_state 9 (by decide) (by decide)
    (by decide) (by decide) (by decide) (by decide)).2 (by decide)).1

/-- One element of the `p_spaces` jsonb array: every extracted field may be
SQL null. -/
structure SpaceInput where
  space_id : Option Nat
  space_allocated_m2 : Option Int
  price_per_m2_cents : Option Int
  offer_total_cents : Option Int
  is_manual_price : Option Bool
  comments : Option String
deriving DecidableEq, Repr

/-- One element of the `p_services` jsonb array. -/
structure ServiceInput where
  service_id : Option Nat
  pricing_type : Option PricingType
  quantity : Option Int
  price_per_hour_cents : Option Int
  price_per_unit_cents : Option Int
  unit_type : Option String
  fixed_price_cents : Option Int
  offer_total_cents : Option Int
  comments : Option String
deriving DecidableEq, Repr

/-- One element of the `p_terms` jsonb array. -/
structure TermInput where
  term_type : Option String
  description : Option String
deriving DecidableEq, Repr

/-- A persisted `booking_offer_spaces` row. -/
structure OfferSpaceRow where
  space_id : Nat
  space_allocated_m2 : Int
  price_per_m2_cents : Int
  offer_total_cents : Int
  is_manual_price : Bool
  comments : Option String
deriving DecidableEq, Repr

/-- A persisted `booking_offer_services` row. -/
structure OfferServiceRow where
  service_id : Nat
  pricing_type : PricingType
  quantity : Option Int
  price_per_hour_cents : Option Int
  price_per_unit_cents : Option Int
  unit_type : Option String
  fixed_price_cents : Option Int
  offer_total_cents : Int
  comments : Option String
deriving DecidableEq, Repr

/-- A persisted `booking_offer_terms` row. -/
structure OfferTermRow where
  term_type : String
  description : String
deriving DecidableEq, Repr

/-- `NULLIF(x, 0)` on a nullable value. -/
def nullifZero (v : Option Int) : Option Int :=
  v.bind (fun x => if x = 0 then none else some x)

/-- The space-allocation loop of `public.update_booking_offer`
(`20250318142413_morning_villa.sql` lines 69-109): require `space_id`,
require it to exist in `m_warehouse_spaces`, insert the row with COALESCE
defaults and add `COALESCE(offer_total_cents, 0)` to `v_space_total`. -/
def process_spaces (catalog : List Nat) :
    List SpaceInput → Except String (List OfferSpaceRow × Int)
  | [] => Except.ok ([], 0)
  | s :: rest =>
      match s.space_id with
      | none => Except.error "space_id is required for space allocations"
      | some sid =>
          if catalog.contains sid then
            match process_spaces catalog rest with
            | Except.error e => Except.error e
            | Except.ok (rows, total) =>
                Except.ok
                  ({ space_id := sid
                     space_allocated_m2 := s.space_allocated_m2.getD 0
                     price_per_m2_cents := s.price_per_m2_cents.getD 0
                     offer_total_cents := s.offer_total_cents.getD 0
                     is_manual_price := s.is_manual_price.getD false
                     comments := s.comments } :: rows,
                   s.offer_total_cents.getD 0 + total)
          else
            Except.error "Space with ID does not exist"

/-- The service-allocation loop of `public.update_booking_offer`
(`20250318142413_morning_villa.sql` lines 111-155): require `service_id`,
require it to exist in `warehouse_services`, insert the row (with
`NULLIF(..., 0)` on the numeric price fields and a COALESCE default of
`ask_quote` on the pricing type) and add `COALESCE(offer_total_cents, 0)` to
`v_services_total`. -/
def process_services (catalog : List Nat) :
    List ServiceInput → Except String (List OfferServiceRow × Int)
  | [] => Except.ok ([], 0)
  | s :: rest =>
      match s.service_id with
      | none => Except.error "service_id is required for service allocations"
      | some sid =>
          if catalog.contains sid then
            match process_services catalog rest with
            | Except.error e => Except.error e
            | Except.ok (rows, total) =>
                Except.ok
                  ({ service_id := sid
                     pricing_type := s.pricing_type.getD PricingType.ask_quote
                     quantity := nullifZero s.quantity
                     price_per_hour_cents := nullifZero s.price_per_hour_cents
                     price_per_unit_cents := nullifZero s.price_per_unit_cents
                     unit_type := s.unit_type
                     fixed_price_cents := nullifZero s.fixed_price_cents
                     offer_total_cents := s.offer_total_cents.getD 0
                     comments := s.comments } :: rows,
                   s.offer_total_cents.getD 0 + total)
          else
            Except.error "Service with ID does not exist"

/-- The terms loop: both fields are required. -/
def process_terms : List TermInput → Except String (List OfferTermRow)
  | [] => Except.ok []
  | t :: rest =>
      match t.term_type, t.description with
      | some tt, some d =>
          match process_terms rest with
          | Except.error e => Except.error e
          | Except.ok rows => Except.ok (⟨tt, d⟩ :: rows)
      | _, _ => Except.error "term_type and description are required for terms"

/-- The summary upsert of `update_booking_offer` (morning_villa lines
178-199): insert, or on conflict overwrite the calculated/actual/space/
services columns with `actual_offer_cents = p_total_cost_cents`. -/
def upsert_summary (old : Option OfferSummaryRow) (estimated : Option Int)
    (space_total services_total p_total : Int) : OfferSummaryRow :=
  match old with
  | none =>
      { quoted_price_cents := estimated.getD 0
        calculated_price_cents := space_total + services_total
        actual_offer_cents := some p_total
        space_total_cents := space_total
        services_total_cents := services_total }
  | some o =>
      { o with
        calculated_price_cents := space_total + services_total
        actual_offer_cents := some p_total
        space_total_cents := space_total
        services_total_cents := services_total }

/-- The whole persisted state touched by `update_booking_offer`: the offer
header, its child rows, its summary, and the joined inquiry's estimated
cost. -/
structure OfferAggregate where
  status : Status
  total_cost_cents : Int
  valid_until : Option Nat
  notes : Option String
  updated_at : Nat
  spaces : List OfferSpaceRow
  services : List OfferServiceRow
  terms : List OfferTermRow
  summary : Option OfferSummaryRow
  inquiry_estimated_cost : Option Int
deriving DecidableEq, Repr

/-- Embedding of `public.update_booking_offer` from
`20250318142413_morning_villa.sql` lines 16-203 (same behaviour in `part_011`
lines 254-468): administrator check, header update, delete-and-reinsert of
all child rows, summary upsert.  The function reads the offer's status
nowhere. -/
def update_booking_offer (st : OfferAggregate)
    (catalog_spaces catalog_services : List Nat) (is_admin : Bool)
    (p_total_cost_cents : Int) (p_valid_until : Option Nat)
    (p_notes : Option String) (p_spaces : Option (List SpaceInput))
    (p_services : Option (List ServiceInput)) (p_terms : Option (List TermInput))
    (now : Nat) : Except String OfferAggregate :=
  if ¬ is_admin then
    Except.error "Permission denied"
  else
    match
      (match p_spaces with
       | none => Except.ok ([], 0)
       | some l => process_spaces catalog_spaces l) with
    | Except.error e => Except.error e
    | Except.ok (spaceRows, spaceTotal) =>
        match
          (match p_services with
           | none => Except.ok ([], 0)
           | some l => process_services catalog_services l) with
        | Except.error e => Except.error e
        | Except.ok (serviceRows, servicesTotal) =>
            match
              (match p_terms with
               | none => Except.ok []
               | some l => process_terms l) with
            | Except.error e => Except.error e
            | Except.ok termRows =>
                Except.ok
                  { st with
                    total_cost_cents := p_total_cost_cents
                    valid_until := p_valid_until
                    notes := p_notes
                    updated_at := now
                    spaces := spaceRows
                    services := serviceRows
                    terms := termRows
                    summary := some (upsert_summary st.summary
                      st.inquiry_estimated_cost spaceTotal servicesTotal
                      p_total_cost_cents) }

/-- A concrete offer that has already been sent. -/
def c5_sent_offer : OfferAggregate :=
  { status := Status.offer_sent
    total_cost_cents := 100
    valid_until := some 1
    notes := some "old"
    updated_at := 0
    spaces := [⟨1, 10, 200, 2000, false, none⟩]
    services := []
    terms := []
    summary := some ⟨50, 2000, some 100, 2000, 0⟩
    inquiry_estimated_cost := some 50 }

/-- C5 counterexample: calling `update_booking_offer` on the sent offer
`c5_sent_offer` does not fail with any invalid-state error; it succeeds and
replaces the header fields, the allocation rows and the summary — refuting
the claim that a non-draft offer is protected. -/
theorem c5_replace_sent_offer_cex :
    update_booking_offer c5_sent_offer [1, 2] [] true 999 (some 8) (some "new")
        (some [⟨some 2, some 20, some 300, some 6000, some true, none⟩])
        none none 7 =
      Except.ok
        { status := Status.offer_sent
          total_cost_cents := 999
          valid_until := some 8
          notes := some "new"
          updated_at := 7
          spaces := [⟨2, 20, 300, 6000, true, none⟩]
          services := []
          terms := []
          summary := some ⟨50, 6000, some 999, 6000, 0⟩
          inquiry_estimated_cost := some 50 } := by
  rfl

/-- C5 (amended): `update_booking_offer` checks only that the caller is an
administrator; for an offer in any lifecycle status — including `offer_sent`
— it replaces the header fields, the child allocation rows and the summary,
and leaves the status itself untouched.  No invalid-state check exists. -/
theorem c5_update_booking_offer_ignores_status (st : OfferAggregate)
    (cs cv : List Nat) (ptc : Int) (pvu : Option Nat) (pn : Option String)
    (ls : List SpaceInput) (rows : List OfferSpaceRow) (stot : Int) (now : Nat)
    (hsp : process_spaces cs ls = Except.ok (rows, stot)) :
    update_booking_offer st cs cv true ptc pvu pn (some ls) none none now =
      Except.ok
        { st with
          total_cost_cents := ptc
          valid_until := pvu
          notes := pn
          updated_at := now
          spaces := rows
          services := []
          terms := []
          summary := some (upsert_summary st.summary st.inquiry_estimated_cost
            stot 0 ptc) } := by
  unfold update_booking_offer
  simp [hsp, process_services, process_terms]

/-- C5 witness: the amended claim applied to the concrete sent offer. -/
theorem c5_update_booking_offer_ignores_status_witness :
    update_booking_offer c5_sent_offer [1, 2] [] true 555 none none
        (some [⟨some 1, some 5, some 10, some 50, some false, none⟩])
        none none 3 =
      Except.ok
        { c5_sent_offer with
          total_cost_cents := 555
          valid_until := none
          notes := none
          updated_at := 3
          spaces := [⟨1, 5, 10, 50, false, none⟩]
          summary := some ⟨50, 50, some 555, 50, 0⟩ } := by
  have h := c5_update_booking_offer_ignores_status c5_sent_offer [1, 2] []
    555 none none [⟨some 1, some 5, some 10, some 50, some false, none⟩]
    [⟨1, 5, 10, 50, false, none⟩] 50 3 (by rfl)
  simpa [c5_sent_offer, upsert_summary] using h

/-- The space loop of `public.save_booking_offer`
(`20250318140113_turquoise_crystal.sql` lines 70-99): only `space_id` is
required; the row is inserted with COALESCE defaults and
`COALESCE(offer_total_cents, 0)` is added to `v_space_total`. -/
def save_process_spaces : List SpaceInput → Except String (List OfferSpaceRow × Int)
  | [] => Except.ok ([], 0)
  | s :: rest =>
      match s.space_id with
      | none => Except.error "space_id is required for space allocations"
      | some sid =>
          match save_process_spaces rest with
          | Except.error e => Except.error e
          | Except.ok (rows, total) =>
              Except.ok
                ({ space_id := sid
                   space_allocated_m2 := s.space_allocated_m2.getD 0
                   price_per_m2_cents := s.price_per_m2_cents.getD 0
                   offer_total_cents := s.offer_total_cents.getD 0
                   is_manual_price := s.is_manual_price.getD false
                   comments := s.comments } :: rows,
                 s.offer_total_cents.getD 0 + total)

/-- The service loop of `public.save_booking_offer`
(`20250318140113_turquoise_crystal.sql` lines 102-136): only `service_id` is
required; `v_services_total` grows by `COALESCE(offer_total_cents, 0)` for
every line, whatever its `pricing_type`. -/
def save_process_services : List ServiceInput → Except String (List OfferServiceRow × Int)
  | [] => Except.ok ([], 0)
  | s :: rest =>
      match s.service_id with
      | none => Except.error "service_id is required for service allocations"
      | some sid =>
          match save_process_services rest with
          | Except.error e => Except.error e
          | Except.ok (rows, total) =>
              Except.ok
                ({ service_id := sid
                   pricing_type := s.pricing_type.getD PricingType.ask_quote
                   quantity := nullifZero s.quantity
                   price_per_hour_cents := nullifZero s.price_per_hour_cents
                   price_per_unit_cents := nullifZero s.price_per_unit_cents
                   unit_type := s.unit_type
                   fixed_price_cents := nullifZero s.fixed_price_cents
                   offer_total_cents := s.offer_total_cents.getD 0
                   comments := s.comments } :: rows,
                 s.offer_total_cents.getD 0 + total)

/-- The freshly created offer: header in `draft` plus its child rows and the
initial summary row. -/
structure NewOfferDraft where
  status : Status
  total_cost_cents : Int
  valid_until : Option Nat
  notes : Option String
  spaces : List OfferSpaceRow
  services : List OfferServiceRow
  terms : List OfferTermRow
  summary : OfferSummaryRow
deriving DecidableEq, Repr

/-- Embedding of `public.save_booking_offer` from
`20250318140113_turquoise_crystal.sql` lines 15-178: administrator check,
insert of a new `draft` offer, the three child loops, then the initial
summary with `actual_offer_cents = p_total_cost_cents`. -/
def save_booking_offer (is_admin : Bool) (inquiry_estimated_cost : Option Int)
    (p_total_cost_cents : Int) (p_valid_until : Option Nat)
    (p_notes : Option String) (p_spaces : Option (List SpaceInput))
    (p_services : Option (List ServiceInput)) (p_terms : Option (List TermInput)) :
    Except String NewOfferDraft :=
  if ¬ is_admin then
    Except.error "Permission denied"
  else
    match
      (match p_spaces with
       | none => Except.ok ([], 0)
       | some l => save_process_spaces l) with
    | Except.error e => Except.error e
    | Except.ok (spaceRows, spaceTotal) =>
        match
          (match p_services with
           | none => Except.ok ([], 0)
           | some l => save_process_services l) with
        | Except.error e => Except.error e
        | Except.ok (serviceRows, servicesTotal) =>
            match
              (match p_terms with
               | none => Except.ok []
               | some l => process_terms l) with
            | Except.error e => Except.error e
            | Except.ok termRows =>
                Except.ok
                  { status := Status.draft
                    total_cost_cents := p_total_cost_cents
                    valid_until := p_valid_until
                    notes := p_notes
                    spaces := spaceRows
                    services := serviceRows
                    terms := termRows
                    summary :=
                      { quoted_price_cents := inquiry_estimated_cost.getD 0
                        calculated_price_cents := spaceTotal + servicesTotal
                        actual_offer_cents := some p_total_cost_cents
                        space_total_cents := spaceTotal
                        services_total_cents := servicesTotal } }

/-- The offer header and summary inserted by `create_booking_offer`. -/
structure CreatedOffer where
  status : Status
  total_cost_cents : Int
  valid_until : Option Nat
  notes : Option String
  summary : OfferSummaryRow
deriving DecidableEq, Repr

/-- Embedding of `public.create_booking_offer` from
`20250317134739_rustic_firefly.sql` lines 245-323: administrator check,
insert of a new `draft` offer header, then the initial summary with
`calculated = 0` and `actual_offer_cents = NULL`.  (The companion
`save_offer_allocations` of the same migration keeps `actual_offer_cents`
NULL while the offer status is `draft`.) -/
def create_booking_offer (is_admin : Bool) (inquiry_estimated_cost : Option Int)
    (p_total_cost_cents : Int) (p_valid_until : Option Nat)
    (p_notes : Option String) : Except String CreatedOffer :=
  if ¬ is_admin then
    Except.error "Permission denied"
  else
    Except.ok
      { status := Status.draft
        total_cost_cents := p_total_cost_cents
        valid_until := p_valid_until
        notes := p_notes
        summary :=
          { quoted_price_cents := inquiry_estimated_cost.getD 0
            calculated_price_cents := 0
            actual_offer_cents := none
            space_total_cents := 0
            services_total_cents := 0 } }

/-- The `actual_offer_cents` written back by `save_offer_allocations`
(`20250317134739_rustic_firefly.sql` lines 368-377): NULL while the offer is
a draft, the calculated total otherwise. -/
def save_offer_allocations_actual (offer_status : Status) (c : Int) : Option Int :=
  if offer_status = Status.draft then none else some c

/-- C7 counterexample: the `save_booking_offer` draft-creation path called
with `total_cost_cents = 100` persists a fresh summary whose
`actual_offer_cents` is `some 100`, not null — refuting the claim that every
successful draft creation leaves the actual figure null. -/
theorem c7_save_booking_offer_actual_not_null_cex :
    save_booking_offer true (some 50) 100 (some 9) none none none none =
      Except.ok
        { status := Status.draft
          total_cost_cents := 100
          valid_until := some 9
          notes := none
          spaces := []
          services := []
          terms := []
          summary := ⟨50, 0, some 100, 0, 0⟩ } ∧
    (some (100 : Int)) ≠ none := by
  exact ⟨rfl, by decide⟩

/-- C7 (amended): `create_booking_offer` persists a fresh OfferSummary whose
`actual_offer_cents` is null (and the draft-status allocation save keeps it
null), while the `save_booking_offer` draft-creation path instead persists
`actual_offer_cents` equal to the caller-supplied `total_cost_cents`. -/
theorem c7_draft_summary_actual (est : Option Int) (ptc : Int)
    (pvu : Option Nat) (pn : Option String) :
    create_booking_offer true est ptc pvu pn =
      Except.ok ⟨Status.draft, ptc, pvu, pn, ⟨est.getD 0, 0, none, 0, 0⟩⟩ ∧
    (∀ c : Int, save_offer_allocations_actual Status.draft c = none) ∧
    (∀ d : NewOfferDraft,
      save_booking_offer true est ptc pvu pn none none none = Except.ok d →
      d.summary.actual_offer_cents = some ptc) := by
  refine ⟨?_, ?_, ?_⟩
  · unfold create_booking_offer
    simp
  · intro c
    unfold save_offer_allocations_actual
    simp
  · intro d hd
    unfold save_booking_offer at hd
    simp at hd
    rw [← hd]

/-- C7 witness: the amended claim evaluated at a concrete draft creation. -/
theorem c7_draft_summary_actual_witness :
    create_booking_offer true (some 50) 100 (some 9) none =
      Except.ok ⟨Status.draft, 100, some 9, none, ⟨50, 0, none, 0, 0⟩⟩ :=
  (c7_draft_summary_actual (some 50) 100 (some 9) none).1

/-- A concrete quote-only service line carrying a caller-supplied offer
total of 500 cents. -/
def c6_line : ServiceInput :=
  { service_id := some 1
    pricing_type := some PricingType.ask_quote
    quantity := none
    price_per_hour_cents := none
    price_per_unit_cents := none
    unit_type := none
    fixed_price_cents := none
    offer_total_cents := some 500
    comments := none }

/-- C6 counterexample: saving an offer whose only service line is the
`ask_quote` line `c6_line` yields `services_total_cents = 500` and
`calculated_price_cents = 500`: the quote-only line did contribute its
supplied `offer_total_cents`, refuting the claim that it contributes
nothing regardless of supplied price fields. -/
theorem c6_ask_quote_contributes_cex :
    save_booking_offer true none 0 none none none (some [c6_line]) none =
      Except.ok
        { status := Status.draft
          total_cost_cents := 0
          valid_until := none
          notes := none
          spaces := []
          services := [⟨1, PricingType.ask_quote, none, none, none, none, none, 500, none⟩]
          terms := []
          summary := ⟨0, 500, some 0, 0, 500⟩ } ∧
    (500 : Int) ≠ 0 := by
  exact ⟨rfl, by decide⟩

/-- C6 (amended): a service line's contribution to `services_total_cents`
and `calculated_price_cents` is exactly `COALESCE(offer_total_cents, 0)` —
for `ask_quote` lines like every other: the quantity and mode-price fields
never enter the total, and the line contributes nothing exactly when its
`offer_total_cents` is null; and an `ask_quote` line never causes the send
validation to fail. -/
theorem c6_ask_quote_pricing (s : ServiceInput) (sid : Nat)
    (hsid : s.service_id = some sid)
    (_hq : s.pricing_type = some PricingType.ask_quote) :
    (∀ q ph pu ut f,
      (save_process_services
        [{ s with
            quantity := q
            price_per_hour_cents := ph
            price_per_unit_cents := pu
            unit_type := ut
            fixed_price_cents := f }]).map Prod.snd =
        Except.ok (s.offer_total_cents.getD 0)) ∧
    (s.offer_total_cents = none →
      (save_process_services [s]).map Prod.snd = Except.ok 0) ∧
    (∀ row : ServiceChildRow,
      row.pricing_type = PricingType.ask_quote → service_missing_price row = false) ∧
    (∀ (st : SendOfferState) (row : ServiceChildRow),
      row.pricing_type = PricingType.ask_quote →
      validate_offer_send_checks { st with services := row :: st.services } =
        validate_offer_send_checks st) := by
  refine ⟨?_, ?_, ?_, ?_⟩
  · intro q ph pu ut f
    simp [save_process_services, hsid, Except.map]
  · intro hnone
    simp [save_process_services, hsid, hnone, Except.map]
  · intro row hrow
    unfold service_missing_price
    simp [hrow]
  · intro st row hrow
    have hmiss : service_missing_price row = false := by
      unfold service_missing_price
      simp [hrow]
    simp [validate_offer_send_checks, positive_allocations, total_allocated,
      total_requested, List.any_cons, hmiss]

/-- C6 witness: the amended contribution rule at the concrete quote line. -/
theorem c6_ask_quote_pricing_witness :
    (save_process_services [c6_line]).map Prod.snd = Except.ok ((500 : Int)) := by
  have h := ((c6_ask_quote_pricing c6_line 1 rfl rfl).1) none none none none none
  simpa [c6_line] using h

/-- A `bookings` row as inserted by `respond_to_offer`. -/
structure BookingRow where
  inquiry_id : Nat
  offer_id : Nat
  status : Status
deriving DecidableEq, Repr

/-- The persisted rows read and written by `respond_to_offer`: the offer, its
owning inquiry's trader, and the bookings table. -/
structure RespondState where
  offer_id : Nat
  inquiry_id : Nat
  trader_id : Nat
  offer_status : Status
  offer_updated_at : Nat
  bookings : List BookingRow
deriving DecidableEq, Repr

/-- Embedding of `public.respond_to_offer(p_offer_id, p_action)` from
`part_016` lines 211-268: validate the action, check that the caller is the
trader owning the inquiry behind the offer (raising 'Permission denied'
before any write), update the offer status where it is currently sent, and on
an accept that matched insert a `confirmed` booking row linked to the offer.
Returns the SQL function's FOUND flag together with the committed state. -/
def respond_to_offer (st : RespondState) (caller : Nat) (p_action : String)
    (now : Nat) : Except String (Bool × RespondState) :=
  if p_action ≠ "accept" ∧ p_action ≠ "reject" then
    Except.error "Invalid action. Must be either accept or reject"
  else if caller ≠ st.trader_id then
    Except.error "Permission denied"
  else if st.offer_status = Status.offer_sent then
    let st1 :=
      { st with
        offer_status :=
          if p_action = "accept" then Status.accepted else Status.rejected
        offer_updated_at := now }
    if p_action = "accept" then
      Except.ok
        (true,
         { st1 with
           bookings :=
             st1.bookings ++ [⟨st.inquiry_id, st.offer_id, Status.confirmed⟩] })
    else
      Except.ok (true, st1)
  else
    Except.ok (false, st)

/-- The persisted state after an attempted response: unchanged when the call
raised. -/
def run_respond (st : RespondState) (caller : Nat) (p_action : String)
    (now : Nat) : RespondState :=
  match respond_to_offer st caller p_action now with
  | Except.ok (_, st2) => st2
  | Except.error _ => st

/-- C9: a caller who is not the trader owning the inquiry behind the offer
always gets 'Permission denied' and no state change, even for a valid action
on an offer in `offer_sent`; when the owning trader accepts a sent offer, a
`confirmed` booking row linked to that offer is created. -/
theorem c9_respond_to_offer_permissions (st : RespondState) (caller : Nat)
    (act : String) (now : Nat) :
    ((act = "accept" ∨ act = "reject") → caller ≠ st.trader_id →
      respond_to_offer st caller act now = Except.error "Permission denied" ∧
      run_respond st caller act now = st) ∧
    (caller = st.trader_id → st.offer_status = Status.offer_sent →
      respond_to_offer st caller "accept" now =
        Except.ok
          (true,
           { st with
             offer_status := Status.accepted
             offer_updated_at := now
             bookings :=
               st.bookings ++ [⟨st.inquiry_id, st.offer_id, Status.confirmed⟩] })) := by
  constructor
  · intro hact hown
    have herr : respond_to_offer st caller act now =
        Except.error "Permission denied" := by
      unfold respond_to_offer
      rcases hact with h | h <;> simp [h, hown]
    exact ⟨herr, by unfold run_respond; rw [herr]⟩
  · intro hown hsent
    unfold respond_to_offer
    simp [hown, hsent]

/-- C9 witness: an outsider (user 99) is refused on a sent offer owned by
trader 1, and trader 1's accept creates the confirmed booking. -/
theorem c9_respond_to_offer_permissions_witness :
    respond_to_offer ⟨10, 20, 1, Status.offer_sent, 0, []⟩ 99 "accept" 5 =
      Except.error "Permission denied" ∧
    respond_to_offer ⟨10, 20, 1, Status.offer_sent, 0, []⟩ 1 "accept" 5 =
      Except.ok
        (true, ⟨10, 20, 1, Status.accepted, 5, [⟨20, 10, Status.confirmed⟩]⟩) := by
  constructor
  · exact ((c9_respond_to_offer_permissions ⟨10, 20, 1, Status.offer_sent, 0, []⟩
      99 "accept" 5).1 (Or.inl rfl) (by decide)).1
  · exact (c9_respond_to_offer_permissions ⟨10, 20, 1, Status.offer_sent, 0, []⟩
      1 "accept" 5).2 rfl rfl

end BrmDev
